import Mathlib

/-
  Verification of the authentication session controller of the
  binge-eating tracking app (src/services/auth.ts, src/context/AuthContext.tsx,
  src/navigation/AppNavigator.tsx).

  The service layer wraps an external credential service (Firebase Auth) and a
  profile store (Firestore).  External outcomes (credential verification,
  document reads and writes, popup and redirect results) are passed in as
  explicit parameters, so every function here is a pure translation of the
  corresponding TypeScript function.
-/

namespace BedAuth

/-- The two user roles of the app (src/types/index.ts: `patient | clinician`). -/
inductive UserRole where
  | patient
  | clinician
deriving DecidableEq

/-- The fields of the Firebase session user that the code reads:
`uid`, `email` (nullable) and `displayName` (nullable). -/
structure SessionUser where
  uid : String
  email : Option String
  displayName : Option String
deriving DecidableEq

/-- The `UserProfile` record of src/services/auth.ts. -/
structure UserProfile where
  uid : String
  email : String
  role : UserRole
  firstName : String
  lastName : String
  dateOfBirth : Option String
  phoneNumber : Option String
  createdAt : String
  updatedAt : String
deriving DecidableEq

/-- The `SignupData` record of src/context/AuthContext.tsx. -/
structure SignupData where
  firstName : String
  lastName : String
  dateOfBirth : Option String
  phoneNumber : Option String
deriving DecidableEq

/-- A thrown JavaScript error as the catch blocks of src/services/auth.ts see
it: either a Firebase error carrying a `code` string, or a plain `Error`
(whose `code` is undefined, so it never matches a `case` of a `switch`). -/
inductive JsError where
  | fb (code : String) (message : String)
  | plain (message : String)
deriving DecidableEq

/-- The profile store (Firestore `users` collection), keyed by uid.  Writes
prepend; reads take the most recent binding. -/
abbrev Store := List (String × UserProfile)

/-- Read the document stored under `uid`, if any. -/
def storeGet (store : Store) (uid : String) : Option UserProfile :=
  match store.find? (fun kv => kv.1 == uid) with
  | some kv => some kv.2
  | none => none

/-- `setDoc`: write (or overwrite) the document under `uid`. -/
def storeSet (store : Store) (uid : String) (p : UserProfile) : Store :=
  (uid, p) :: store

/-- JavaScript `a || b` on a nullable string: both `null` and `""` are falsy. -/
def jsOrString (a : Option String) (b : String) : String :=
  match a with
  | none => b
  | some s => if s = "" then b else s

/-- `user.displayName?.split(' ')[0] || ''` of src/services/auth.ts.  When the
display name is null the optional chain yields undefined and `|| ''` gives the
empty string; otherwise the head of the space-split (the trailing `|| ''` only
maps the empty string to itself). -/
def firstNameFromDisplayName (dn : Option String) : String :=
  match dn with
  | none => ""
  | some s => (s.splitOn " ").headD ""

/-- `user.displayName?.split(' ').slice(1).join(' ') || ''` of
src/services/auth.ts. -/
def lastNameFromDisplayName (dn : Option String) : String :=
  match dn with
  | none => ""
  | some s => String.intercalate " " ((s.splitOn " ").drop 1)

/-- Outcome of a Firestore `getDoc` call for `uid`: either a thrown error
(when the read fails) or the lookup result from the store. -/
def getDocOutcome (store : Store) (uid : String) (fetchFails : Bool) :
    Except JsError (Option UserProfile) :=
  if fetchFails then Except.error (JsError.plain "firestore getDoc failed")
  else Except.ok (storeGet store uid)

/-- The message the code builds when a signed-in user has no profile document
(src/services/auth.ts line 123). -/
def profileMissingMessage : String := "User profile not found. Please contact support."

/-- The `switch (authError.code)` of the catch block of `signIn`
(src/services/auth.ts lines 138-151).  A plain `Error` has no `code`, so it
falls to the default case. -/
def signInErrorMessage (e : JsError) : String :=
  match e with
  | JsError.fb code _ =>
    if code = "auth/user-not-found" then "No account found with this email address."
    else if code = "auth/wrong-password" then "Incorrect password. Please try again."
    else if code = "auth/invalid-email" then "Please enter a valid email address."
    else if code = "auth/user-disabled" then "This account has been disabled. Please contact support."
    else if code = "auth/too-many-requests" then "Too many failed attempts. Please try again later."
    else "Failed to sign in. Please check your credentials."
  | JsError.plain _ => "Failed to sign in. Please check your credentials."

/-- The `switch (authError.code)` of the catch block of `signUp`
(src/services/auth.ts lines 93-104). -/
def signUpErrorMessage (e : JsError) : String :=
  match e with
  | JsError.fb code _ =>
    if code = "auth/email-already-in-use" then "An account with this email already exists."
    else if code = "auth/invalid-email" then "Please enter a valid email address."
    else if code = "auth/weak-password" then "Password should be at least 6 characters long."
    else if code = "auth/operation-not-allowed" then "Email/password accounts are not enabled."
    else "Failed to create account. Please try again."
  | JsError.plain _ => "Failed to create account. Please try again."

/-- The `switch (authError.code)` of the catch block of `signInWithGoogle`
(src/services/auth.ts lines 242-253). -/
def googleSignInErrorMessage (e : JsError) : String :=
  match e with
  | JsError.fb code _ =>
    if code = "auth/popup-closed-by-user" then "Sign in was cancelled. Please try again."
    else if code = "auth/popup-blocked" then "Popup was blocked by your browser. Please allow popups and try again."
    else if code = "auth/cancelled-popup-request" then "Sign in was cancelled. Please try again."
    else if code = "auth/account-exists-with-different-credential" then "An account already exists with this email address. Please sign in with your existing method."
    else "Failed to sign in with Google. Please try again."
  | JsError.plain _ => "Failed to sign in with Google. Please try again."

/-- The body of the `try` block of `signIn`: verify credentials, `getDoc` the
profile, and throw a plain `Error` with `profileMissingMessage` when the
document does not exist (src/services/auth.ts lines 110-132). -/
def signInTryBody (cred : Except JsError SessionUser) (store : Store) (fetchFails : Bool) :
    Except JsError (SessionUser × UserProfile) := do
  let user ← cred
  let docOpt ← getDocOutcome store user.uid fetchFails
  match docOpt with
  | none => Except.error (JsError.plain profileMissingMessage)
  | some p => pure (user, p)

/-- `signIn` of src/services/auth.ts: the catch block maps every error thrown
inside the `try` — including the locally thrown profile-missing `Error` —
through `signInErrorMessage`. -/
def signIn (cred : Except JsError SessionUser) (store : Store) (fetchFails : Bool) :
    Except String (SessionUser × UserProfile) :=
  match signInTryBody cred store fetchFails with
  | Except.ok r => Except.ok r
  | Except.error e => Except.error (signInErrorMessage e)

/-- Result of a service call that may also write to the profile store:
the returned value (or thrown message), the updated store, and the list of
`setDoc` writes performed. -/
structure ServiceResult (α : Type) where
  result : Except String α
  store : Store
  writes : List (String × UserProfile)

/-- The profile `signUp` constructs (src/services/auth.ts lines 68-78):
`email: user.email || email`, both timestamps set to `now`. -/
def mkSignUpProfile (user : SessionUser) (email : String) (role : UserRole)
    (pd : SignupData) (now : String) : UserProfile :=
  { uid := user.uid
    email := jsOrString user.email email
    role := role
    firstName := pd.firstName
    lastName := pd.lastName
    dateOfBirth := pd.dateOfBirth
    phoneNumber := pd.phoneNumber
    createdAt := now
    updatedAt := now }

/-- `signUp` of src/services/auth.ts: create the account, build the profile,
`setDoc` it.  A `setDoc` failure is caught by the same catch block; a
Firestore error code matches no `auth/` case, so the default message results
and no write happens. -/
def signUp (created : Except JsError SessionUser) (email : String) (role : UserRole)
    (pd : SignupData) (now : String) (store : Store) (setDocFails : Bool) :
    ServiceResult (SessionUser × UserProfile) :=
  match created with
  | Except.error e => ⟨Except.error (signUpErrorMessage e), store, []⟩
  | Except.ok user =>
    let profile := mkSignUpProfile user email role pd now
    if setDocFails then
      ⟨Except.error (signUpErrorMessage (JsError.plain "firestore setDoc failed")), store, []⟩
    else
      ⟨Except.ok (user, profile), storeSet store user.uid profile, [(user.uid, profile)]⟩

/-- `signOutUser` of src/services/auth.ts lines 156-168. -/
def signOutUser (outcome : Except JsError Unit) : Except String Unit :=
  match outcome with
  | Except.ok _ => Except.ok ()
  | Except.error _ => Except.error "Failed to sign out. Please try again."

/-- `getCurrentUserProfile` of src/services/auth.ts lines 176-195: returns
null when there is no current user, when the document does not exist, or when
the read throws (the catch returns null; it never rethrows). -/
def getCurrentUserProfile (currentUser : Option SessionUser) (store : Store)
    (fetchFails : Bool) : Option UserProfile :=
  match currentUser with
  | none => none
  | some user =>
    match getDocOutcome store user.uid fetchFails with
    | Except.error _ => none
    | Except.ok none => none
    | Except.ok (some p) => some p

/-- The default profile synthesized on first social login
(src/services/auth.ts lines 216-225 and 284-293): role patient, name split
from the display name, both timestamps `now`. -/
def mkDefaultGoogleProfile (user : SessionUser) (now : String) : UserProfile :=
  { uid := user.uid
    email := jsOrString user.email ""
    role := UserRole.patient
    firstName := firstNameFromDisplayName user.displayName
    lastName := lastNameFromDisplayName user.displayName
    dateOfBirth := none
    phoneNumber := none
    createdAt := now
    updatedAt := now }

/-- `signInWithGoogle` of src/services/auth.ts lines 206-255: popup, then
profile lookup via `getCurrentUserProfile`; when absent, synthesize the
default profile and `setDoc` it (one write). -/
def signInWithGoogle (popup : Except JsError SessionUser) (now : String) (store : Store)
    (fetchFails : Bool) (setDocFails : Bool) : ServiceResult (SessionUser × UserProfile) :=
  match popup with
  | Except.error e => ⟨Except.error (googleSignInErrorMessage e), store, []⟩
  | Except.ok user =>
    match getCurrentUserProfile (some user) store fetchFails with
    | some p => ⟨Except.ok (user, p), store, []⟩
    | none =>
      let d := mkDefaultGoogleProfile user now
      if setDocFails then
        ⟨Except.error (googleSignInErrorMessage (JsError.plain "firestore setDoc failed")), store, []⟩
      else
        ⟨Except.ok (user, d), storeSet store user.uid d, [(user.uid, d)]⟩

/-- `signInWithGoogleRedirect` of src/services/auth.ts lines 258-266: only
starts the redirect. -/
def signInWithGoogleRedirect (outcome : Except JsError Unit) : Except String Unit :=
  match outcome with
  | Except.ok _ => Except.ok ()
  | Except.error _ => Except.error "Failed to initiate Google sign in. Please try again."

/-- `handleGoogleRedirectResult` of src/services/auth.ts lines 269-310:
`getRedirectResult` may be null (no pending redirect: return null), otherwise
the same default-profile policy as the popup flow; every caught error maps to
the one completion-failure message. -/
def handleGoogleRedirectResult (redirect : Except JsError (Option SessionUser))
    (now : String) (store : Store) (fetchFails : Bool) (setDocFails : Bool) :
    ServiceResult (Option (SessionUser × UserProfile)) :=
  match redirect with
  | Except.error _ => ⟨Except.error "Failed to complete Google sign in. Please try again.", store, []⟩
  | Except.ok none => ⟨Except.ok none, store, []⟩
  | Except.ok (some user) =>
    match getCurrentUserProfile (some user) store fetchFails with
    | some p => ⟨Except.ok (some (user, p)), store, []⟩
    | none =>
      let d := mkDefaultGoogleProfile user now
      if setDocFails then
        ⟨Except.error "Failed to complete Google sign in. Please try again.", store, []⟩
      else
        ⟨Except.ok (some (user, d)), storeSet store user.uid d, [(user.uid, d)]⟩

/-- The session state held by the AuthProvider of src/context/AuthContext.tsx:
`user`, `userProfile`, `isLoading`, `error`. -/
structure AuthState where
  user : Option SessionUser
  userProfile : Option UserProfile
  isLoading : Bool
  error : Option String
deriving DecidableEq

/-- The state at provider construction: both absent, loading, no error. -/
def initialAuthState : AuthState :=
  { user := none, userProfile := none, isLoading := true, error := none }

/-- Result of one context operation: the new session state, the profile
store after the operation, the `setDoc` writes performed, and the message of
the re-raised error, if the operation threw. -/
structure OpResult where
  state : AuthState
  store : Store
  writes : List (String × UserProfile)
  thrown : Option String

/-- The common first phase of every context operation except
`refreshUserProfile`: `setError(null); setIsLoading(true)`. -/
def opBegin (st : AuthState) : AuthState :=
  { st with error := none, isLoading := true }

/-- `login` of src/context/AuthContext.tsx lines 114-132: `signIn`, then on
success set user and profile; on failure `handleAuthError` stores the message
and the error is rethrown; `finally` clears loading. -/
def login (st : AuthState) (store : Store) (cred : Except JsError SessionUser)
    (fetchFails : Bool) : OpResult :=
  let s1 := opBegin st
  match signIn cred store fetchFails with
  | Except.ok (u, p) =>
    ⟨{ s1 with user := some u, userProfile := some p, isLoading := false }, store, [], none⟩
  | Except.error msg =>
    ⟨{ s1 with error := some msg, isLoading := false }, store, [], some msg⟩

/-- `signup` of src/context/AuthContext.tsx lines 135-158. -/
def signup (st : AuthState) (store : Store) (created : Except JsError SessionUser)
    (email : String) (role : UserRole) (pd : SignupData) (now : String)
    (setDocFails : Bool) : OpResult :=
  let s1 := opBegin st
  let r := signUp created email role pd now store setDocFails
  match r.result with
  | Except.ok (u, p) =>
    ⟨{ s1 with user := some u, userProfile := some p, isLoading := false }, r.store, r.writes, none⟩
  | Except.error msg =>
    ⟨{ s1 with error := some msg, isLoading := false }, r.store, r.writes, some msg⟩

/-- `loginWithGoogle` of src/context/AuthContext.tsx lines 161-179. -/
def loginWithGoogle (st : AuthState) (store : Store) (popup : Except JsError SessionUser)
    (now : String) (fetchFails : Bool) (setDocFails : Bool) : OpResult :=
  let s1 := opBegin st
  let r := signInWithGoogle popup now store fetchFails setDocFails
  match r.result with
  | Except.ok (u, p) =>
    ⟨{ s1 with user := some u, userProfile := some p, isLoading := false }, r.store, r.writes, none⟩
  | Except.error msg =>
    ⟨{ s1 with error := some msg, isLoading := false }, r.store, r.writes, some msg⟩

/-- `loginWithGoogleRedirect` of src/context/AuthContext.tsx lines 182-198:
only initiates the redirect; user and profile untouched. -/
def loginWithGoogleRedirect (st : AuthState) (store : Store)
    (outcome : Except JsError Unit) : OpResult :=
  let s1 := opBegin st
  match signInWithGoogleRedirect outcome with
  | Except.ok _ => ⟨{ s1 with isLoading := false }, store, [], none⟩
  | Except.error msg => ⟨{ s1 with error := some msg, isLoading := false }, store, [], some msg⟩

/-- `handleGoogleRedirect` of src/context/AuthContext.tsx lines 201-222: a
null redirect result leaves user and profile untouched. -/
def handleGoogleRedirect (st : AuthState) (store : Store)
    (redirect : Except JsError (Option SessionUser)) (now : String)
    (fetchFails : Bool) (setDocFails : Bool) : OpResult :=
  let s1 := opBegin st
  let r := handleGoogleRedirectResult redirect now store fetchFails setDocFails
  match r.result with
  | Except.ok none => ⟨{ s1 with isLoading := false }, r.store, r.writes, none⟩
  | Except.ok (some (u, p)) =>
    ⟨{ s1 with user := some u, userProfile := some p, isLoading := false }, r.store, r.writes, none⟩
  | Except.error msg =>
    ⟨{ s1 with error := some msg, isLoading := false }, r.store, r.writes, some msg⟩

/-- `logout` of src/context/AuthContext.tsx lines 225-243. -/
def logout (st : AuthState) (store : Store) (outcome : Except JsError Unit) : OpResult :=
  let s1 := opBegin st
  match signOutUser outcome with
  | Except.ok _ =>
    ⟨{ s1 with user := none, userProfile := none, isLoading := false }, store, [], none⟩
  | Except.error msg =>
    ⟨{ s1 with error := some msg, isLoading := false }, store, [], some msg⟩

/-- `loadUserProfile` of src/context/AuthContext.tsx lines 91-104: fetch the
current profile; both the missing-document and the thrown-fetch cases set the
profile to null, and nothing is rethrown. -/
def loadUserProfile (st : AuthState) (currentUser : SessionUser) (store : Store)
    (fetchFails : Bool) : AuthState :=
  { st with userProfile := getCurrentUserProfile (some currentUser) store fetchFails }

/-- `refreshUserProfile` of src/context/AuthContext.tsx lines 107-111: runs
`loadUserProfile` only when a user is present; it does not touch `error` or
`isLoading` and never throws. -/
def refreshUserProfile (st : AuthState) (store : Store) (fetchFails : Bool) : OpResult :=
  match st.user with
  | none => ⟨st, store, [], none⟩
  | some u => ⟨loadUserProfile st u store fetchFails, store, [], none⟩

/-- `clearError` of src/context/AuthContext.tsx line 75. -/
def clearError (st : AuthState) : AuthState :=
  { st with error := none }

/-- The session-change subscription callback of src/context/AuthContext.tsx
lines 259-268: a present user is stored and the profile loaded (possibly to
null); an absent user clears both; either way loading ends. -/
def onSessionChange (st : AuthState) (store : Store) (sessionUser : Option SessionUser)
    (fetchFails : Bool) : AuthState :=
  match sessionUser with
  | some u => { loadUserProfile { st with user := some u } u store fetchFails with isLoading := false }
  | none => { st with user := none, userProfile := none, isLoading := false }

/-- `hasRole` of src/context/AuthContext.tsx lines 246-248:
`userProfile?.role === role`. -/
def hasRole (st : AuthState) (role : UserRole) : Bool :=
  match st.userProfile with
  | some p => decide (p.role = role)
  | none => false

/-- `isAuthenticated = user !== null` (src/context/AuthContext.tsx line 70). -/
def isAuthenticated (st : AuthState) : Bool :=
  st.user.isSome

/-- `isPatient = userProfile?.role === 'patient'` (line 71). -/
def isPatient (st : AuthState) : Bool :=
  match st.userProfile with
  | some p => decide (p.role = UserRole.patient)
  | none => false

/-- `isClinician = userProfile?.role === 'clinician'` (line 72). -/
def isClinician (st : AuthState) : Bool :=
  match st.userProfile with
  | some p => decide (p.role = UserRole.clinician)
  | none => false

/-- The screen trees the Role Router can select.  The fourth branch of the
conditional in src/navigation/AppNavigator.tsx (the defensive default, which
also renders the unauthenticated flow) is kept distinct so reachability of
that branch can be stated. -/
inductive Screen where
  | loadingScreen
  | authFlow
  | patientFlow
  | clinicianFlow
  | authFallback
deriving DecidableEq

/-- `AppNavigator` of src/navigation/AppNavigator.tsx lines 24-80. -/
def appNavigator (st : AuthState) : Screen :=
  if st.isLoading then Screen.loadingScreen
  else if !(isAuthenticated st) then Screen.authFlow
  else if isPatient st then Screen.patientFlow
  else if isClinician st then Screen.clinicianFlow
  else Screen.authFallback

/-- One atomic step of the controller: a public operation together with the
external outcomes it observes, or a session-change subscription delivery. -/
inductive Act where
  | login (cred : Except JsError SessionUser) (fetchFails : Bool)
  | signup (created : Except JsError SessionUser) (email : String) (role : UserRole)
      (pd : SignupData) (now : String) (setDocFails : Bool)
  | loginWithGoogle (popup : Except JsError SessionUser) (now : String)
      (fetchFails : Bool) (setDocFails : Bool)
  | loginWithGoogleRedirect (outcome : Except JsError Unit)
  | handleGoogleRedirect (redirect : Except JsError (Option SessionUser)) (now : String)
      (fetchFails : Bool) (setDocFails : Bool)
  | logout (outcome : Except JsError Unit)
  | refreshUserProfile (fetchFails : Bool)
  | clearError
  | sessionChange (sessionUser : Option SessionUser) (fetchFails : Bool)

/-- The session state together with the profile store. -/
structure World where
  state : AuthState
  store : Store

/-- Dispatch one step to the context function it names.  `clearError` and a
subscription delivery cannot throw and perform no store write. -/
def opResultOf (a : Act) (st : AuthState) (store : Store) : OpResult :=
  match a with
  | Act.login cred f => login st store cred f
  | Act.signup created email role pd now g => signup st store created email role pd now g
  | Act.loginWithGoogle popup now f g => loginWithGoogle st store popup now f g
  | Act.loginWithGoogleRedirect outcome => loginWithGoogleRedirect st store outcome
  | Act.handleGoogleRedirect redirect now f g => handleGoogleRedirect st store redirect now f g
  | Act.logout outcome => logout st store outcome
  | Act.refreshUserProfile f => refreshUserProfile st store f
  | Act.clearError => ⟨clearError st, store, [], none⟩
  | Act.sessionChange su f => ⟨onSessionChange st store su f, store, [], none⟩

/-- Execute one step. -/
def step (w : World) (a : Act) : World :=
  ⟨(opResultOf a w.state w.store).state, (opResultOf a w.state w.store).store⟩

/-- Execute a sequence of steps. -/
def run (w : World) (acts : List Act) : World :=
  acts.foldl step w

/-- The world at controller construction, over an arbitrary pre-existing
profile store. -/
def initWorld (store0 : Store) : World :=
  ⟨initialAuthState, store0⟩

/-- Concrete fixtures used by the closed theorems below. -/
def sampleUser : SessionUser :=
  { uid := "u1", email := some "jane@example.com", displayName := some "Jane Roe" }

def samplePd : SignupData :=
  { firstName := "A", lastName := "B", dateOfBirth := none, phoneNumber := none }

def sampleProfile : UserProfile :=
  mkSignUpProfile sampleUser "jane@example.com" UserRole.clinician samplePd "t0"

def sampleStore : Store :=
  [("u1", sampleProfile)]

/-- Every step preserves the orphan-freedom of the profile: when the session
user is absent afterwards, so is the profile. -/
theorem step_noOrphan (w : World) (a : Act)
    (h : w.state.user = none → w.state.userProfile = none) :
    (step w a).state.user = none → (step w a).state.userProfile = none := by
  cases a <;>
    simp only [step, opResultOf, login, signup, loginWithGoogle, loginWithGoogleRedirect,
      handleGoogleRedirect, logout, refreshUserProfile, clearError, onSessionChange,
      loadUserProfile, opBegin] <;>
    (repeat' split) <;>
    simp_all

/-- Orphan-freedom is preserved by any sequence of steps. -/
theorem run_noOrphan (acts : List Act) : ∀ w : World,
    (w.state.user = none → w.state.userProfile = none) →
    ((run w acts).state.user = none → (run w acts).state.userProfile = none) := by
  induction acts with
  | nil => intro w h; exact h
  | cons a as ih =>
    intro w h
    exact ih (step w a) (step_noOrphan w a h)

/-- C1: for every sequence of controller operations and session-change
subscription deliveries, starting from the controller's constructed state,
whenever the session user is absent the user profile is also absent. -/
theorem user_absent_implies_profile_absent (store0 : Store) (acts : List Act)
    (h : (run (initWorld store0) acts).state.user = none) :
    (run (initWorld store0) acts).state.userProfile = none :=
  run_noOrphan acts (initWorld store0) (fun _ => rfl) h

/-- Witness for C1: the invariant instantiated on a concrete trace. -/
theorem user_absent_implies_profile_absent_witness :
    (run (initWorld []) [Act.logout (Except.ok ())]).state.user = none ∧
    (run (initWorld []) [Act.logout (Except.ok ())]).state.userProfile = none :=
  ⟨rfl, user_absent_implies_profile_absent [] [Act.logout (Except.ok ())] rfl⟩

/-- C2: evaluating `login` at verified credentials whose profile document is
missing.  The service builds the contact-support error, but it is thrown
inside its own `try` block, so the catch block re-wraps it (a plain `Error`
matches no `auth/` code) into the generic credentials message.  The state is
otherwise unchanged, no profile is auto-created, and the generic message is
both stored and re-raised — contradicting the claim that the contact-support
message is surfaced. -/
theorem login_profileMissing_surfaces_generic_message :
    (login initialAuthState [] (Except.ok sampleUser) false).state.error =
        some "Failed to sign in. Please check your credentials." ∧
    (login initialAuthState [] (Except.ok sampleUser) false).thrown =
        some "Failed to sign in. Please check your credentials." ∧
    "Failed to sign in. Please check your credentials." ≠ profileMissingMessage ∧
    (login initialAuthState [] (Except.ok sampleUser) false).state.user = none ∧
    (login initialAuthState [] (Except.ok sampleUser) false).state.userProfile = none ∧
    (login initialAuthState [] (Except.ok sampleUser) false).writes = [] ∧
    (login initialAuthState [] (Except.ok sampleUser) false).store = [] := by
  refine ⟨rfl, rfl, ?_, rfl, rfl, rfl, rfl⟩
  decide

/-- A state carrying a leftover error message and a set loading flag, for
exercising the begin-phase of the operations. -/
def staleErrorState : AuthState :=
  { user := some sampleUser, userProfile := some sampleProfile, isLoading := true,
    error := some "stale failure message" }

/-- C3 counterexample: `refreshUserProfile` is a public operation of the
controller, yet it does not clear `error` at its start, does not set or
restore `isLoading`, and when the profile fetch fails it stores no message
and re-raises nothing (it just nulls the profile). -/
theorem refreshUserProfile_breaks_error_loading_discipline :
    (refreshUserProfile staleErrorState sampleStore false).state.error =
        some "stale failure message" ∧
    (refreshUserProfile staleErrorState sampleStore false).state.isLoading = true ∧
    (refreshUserProfile staleErrorState sampleStore true).state.userProfile = none ∧
    (refreshUserProfile staleErrorState sampleStore true).thrown = none ∧
    (refreshUserProfile staleErrorState sampleStore true).state.error =
        some "stale failure message" :=
  ⟨rfl, rfl, rfl, rfl, rfl⟩

/-- The six operations that run the common begin phase
(`setError(null); setIsLoading(true)`). -/
def isPublicBeginOp : Act → Prop
  | Act.login _ _ => True
  | Act.signup _ _ _ _ _ _ => True
  | Act.loginWithGoogle _ _ _ _ => True
  | Act.loginWithGoogleRedirect _ => True
  | Act.handleGoogleRedirect _ _ _ _ => True
  | Act.logout _ => True
  | _ => False

/-- C3 amended: the six operations that go through the begin phase are
insensitive to the prior `error` and `isLoading` values (the begin phase
overwrites both), always finish with `isLoading = false`, and finish with
`error` equal to the re-raised message — `none` on success, the mapped
human-readable message on failure.  `refreshUserProfile` is the exception:
it leaves `error` and `isLoading` untouched and never raises, even when the
profile fetch fails. -/
theorem operations_error_loading_discipline (a : Act) (st : AuthState) (store : Store)
    (h : isPublicBeginOp a) :
    ((∀ e0 b0, opResultOf a { st with error := e0, isLoading := b0 } store = opResultOf a st store) ∧
     (opResultOf a st store).state.isLoading = false ∧
     (opResultOf a st store).state.error = (opResultOf a st store).thrown) ∧
    (∀ f, (refreshUserProfile st store f).state.error = st.error ∧
          (refreshUserProfile st store f).state.isLoading = st.isLoading ∧
          (refreshUserProfile st store f).thrown = none) := by
  constructor
  · cases a with
    | login cred f =>
      refine ⟨fun e0 b0 => rfl, ?_, ?_⟩ <;>
        (simp only [opResultOf, login, opBegin]; split <;> rfl)
    | signup created email role pd now g =>
      refine ⟨fun e0 b0 => rfl, ?_, ?_⟩ <;>
        (simp only [opResultOf, signup, opBegin]; split <;> rfl)
    | loginWithGoogle popup now f g =>
      refine ⟨fun e0 b0 => rfl, ?_, ?_⟩ <;>
        (simp only [opResultOf, loginWithGoogle, opBegin]; split <;> rfl)
    | loginWithGoogleRedirect outcome =>
      refine ⟨fun e0 b0 => rfl, ?_, ?_⟩ <;>
        (simp only [opResultOf, loginWithGoogleRedirect, opBegin]; split <;> rfl)
    | handleGoogleRedirect redirect now f g =>
      refine ⟨fun e0 b0 => rfl, ?_, ?_⟩ <;>
        (simp only [opResultOf, handleGoogleRedirect, opBegin]; split <;> rfl)
    | logout outcome =>
      refine ⟨fun e0 b0 => rfl, ?_, ?_⟩ <;>
        (simp only [opResultOf, logout, opBegin]; split <;> rfl)
    | refreshUserProfile f => simp [isPublicBeginOp] at h
    | clearError => simp [isPublicBeginOp] at h
    | sessionChange su f => simp [isPublicBeginOp] at h
  · intro f
    refine ⟨?_, ?_, ?_⟩ <;>
      (simp only [refreshUserProfile, loadUserProfile]; split <;> rfl)

/-- Witness for C3 amended: the discipline instantiated on a concrete
`logout` from a state with a stale error. -/
theorem operations_error_loading_discipline_witness :
    (opResultOf (Act.logout (Except.ok ())) staleErrorState sampleStore).state.isLoading = false ∧
    (opResultOf (Act.logout (Except.ok ())) staleErrorState sampleStore).state.error =
      (opResultOf (Act.logout (Except.ok ())) staleErrorState sampleStore).thrown :=
  ⟨((operations_error_loading_discipline (Act.logout (Except.ok ())) staleErrorState
      sampleStore True.intro).1).2.1,
   ((operations_error_loading_discipline (Act.logout (Except.ok ())) staleErrorState
      sampleStore True.intro).1).2.2⟩

/-- C4: a social login — popup (`loginWithGoogle`) or redirect completion
(`handleGoogleRedirect`) — for an identifier with no existing profile
document synthesizes the default profile (role patient, names split from the
display name, both timestamps now), performs exactly that one store write,
and ends signed in with `isPatient` true. -/
theorem socialLogin_newIdentifier_default_profile (st : AuthState) (store : Store)
    (u : SessionUser) (now : String) (h : storeGet store u.uid = none) :
    ((loginWithGoogle st store (Except.ok u) now false false).state.user = some u ∧
     (loginWithGoogle st store (Except.ok u) now false false).state.userProfile =
        some (mkDefaultGoogleProfile u now) ∧
     (loginWithGoogle st store (Except.ok u) now false false).writes =
        [(u.uid, mkDefaultGoogleProfile u now)] ∧
     (loginWithGoogle st store (Except.ok u) now false false).store =
        storeSet store u.uid (mkDefaultGoogleProfile u now) ∧
     isAuthenticated (loginWithGoogle st store (Except.ok u) now false false).state = true ∧
     isPatient (loginWithGoogle st store (Except.ok u) now false false).state = true ∧
     (loginWithGoogle st store (Except.ok u) now false false).thrown = none) ∧
    ((handleGoogleRedirect st store (Except.ok (some u)) now false false).state.user = some u ∧
     (handleGoogleRedirect st store (Except.ok (some u)) now false false).state.userProfile =
        some (mkDefaultGoogleProfile u now) ∧
     (handleGoogleRedirect st store (Except.ok (some u)) now false false).writes =
        [(u.uid, mkDefaultGoogleProfile u now)] ∧
     isPatient (handleGoogleRedirect st store (Except.ok (some u)) now false false).state = true ∧
     (handleGoogleRedirect st store (Except.ok (some u)) now false false).thrown = none) ∧
    (mkDefaultGoogleProfile u now).role = UserRole.patient ∧
    (mkDefaultGoogleProfile u now).firstName = firstNameFromDisplayName u.displayName ∧
    (mkDefaultGoogleProfile u now).lastName = lastNameFromDisplayName u.displayName ∧
    (mkDefaultGoogleProfile u now).createdAt = now ∧
    (mkDefaultGoogleProfile u now).updatedAt = now := by
  simp [loginWithGoogle, signInWithGoogle, handleGoogleRedirect, handleGoogleRedirectResult,
    getCurrentUserProfile, getDocOutcome, h, opBegin, isAuthenticated, isPatient,
    mkDefaultGoogleProfile]

/-- Witness for C4: a brand-new identifier over the empty store. -/
theorem socialLogin_newIdentifier_default_profile_witness :
    storeGet [] sampleUser.uid = none ∧
    isPatient (loginWithGoogle initialAuthState [] (Except.ok sampleUser) "t1" false false).state
      = true :=
  ⟨rfl,
   ((socialLogin_newIdentifier_default_profile initialAuthState [] sampleUser "t1"
      rfl).1).2.2.2.2.2.1⟩

/-- C5: a signup whose account creation succeeds builds the profile from the
account identifier, the supplied role and fields, with both timestamps equal
to the operation time, persists exactly it, and ends signed in; `hasRole`
then holds exactly for the supplied role.  When persistence fails the whole
operation fails: the failure is re-raised and the session stays unchanged. -/
theorem signup_persists_profile_and_roles (st : AuthState) (store : Store) (u : SessionUser)
    (email : String) (role : UserRole) (pd : SignupData) (now : String) :
    ((signup st store (Except.ok u) email role pd now false).state.user = some u ∧
     (signup st store (Except.ok u) email role pd now false).state.userProfile =
        some (mkSignUpProfile u email role pd now) ∧
     (mkSignUpProfile u email role pd now).uid = u.uid ∧
     (mkSignUpProfile u email role pd now).role = role ∧
     (mkSignUpProfile u email role pd now).firstName = pd.firstName ∧
     (mkSignUpProfile u email role pd now).lastName = pd.lastName ∧
     (mkSignUpProfile u email role pd now).createdAt = now ∧
     (mkSignUpProfile u email role pd now).updatedAt = now ∧
     (signup st store (Except.ok u) email role pd now false).store =
        storeSet store u.uid (mkSignUpProfile u email role pd now) ∧
     (signup st store (Except.ok u) email role pd now false).writes =
        [(u.uid, mkSignUpProfile u email role pd now)] ∧
     (signup st store (Except.ok u) email role pd now false).thrown = none ∧
     hasRole (signup st store (Except.ok u) email role pd now false).state role = true ∧
     (∀ r2 : UserRole, r2 ≠ role →
        hasRole (signup st store (Except.ok u) email role pd now false).state r2 = false)) ∧
    ((signup st store (Except.ok u) email role pd now true).thrown =
        some "Failed to create account. Please try again." ∧
     (signup st store (Except.ok u) email role pd now true).state.user = st.user ∧
     (signup st store (Except.ok u) email role pd now true).state.userProfile = st.userProfile ∧
     (signup st store (Except.ok u) email role pd now true).store = store ∧
     (signup st store (Except.ok u) email role pd now true).writes = []) := by
  refine ⟨⟨rfl, rfl, rfl, rfl, rfl, rfl, rfl, rfl, rfl, rfl, rfl, ?_, ?_⟩,
    rfl, rfl, rfl, rfl, rfl⟩
  · simp [hasRole, signup, signUp, opBegin, mkSignUpProfile]
  · intro r2 hne
    simp [hasRole, signup, signUp, opBegin, mkSignUpProfile]
    exact fun hc => absurd hc.symm hne

/-- Witness for C5: a clinician signup; `hasRole clinician` holds and
`hasRole patient` does not. -/
theorem signup_persists_profile_and_roles_witness :
    hasRole (signup initialAuthState [] (Except.ok sampleUser) "jane@example.com"
      UserRole.clinician samplePd "t0" false).state UserRole.clinician = true ∧
    hasRole (signup initialAuthState [] (Except.ok sampleUser) "jane@example.com"
      UserRole.clinician samplePd "t0" false).state UserRole.patient = false :=
  ⟨((signup_persists_profile_and_roles initialAuthState [] sampleUser "jane@example.com"
      UserRole.clinician samplePd "t0").1).2.2.2.2.2.2.2.2.2.2.2.1,
   ((signup_persists_profile_and_roles initialAuthState [] sampleUser "jane@example.com"
      UserRole.clinician samplePd "t0").1).2.2.2.2.2.2.2.2.2.2.2.2 UserRole.patient
      (by decide)⟩

/-- C6: a successful logout clears session user, profile and error and ends
with loading false, from any state — in particular from a state with no
active session, which the controller does not special-case; and a successful
login followed immediately by a successful logout ends with user, profile
and error all absent. -/
theorem logout_clears_session (st : AuthState) (store : Store) :
    ((logout st store (Except.ok ())).state.user = none ∧
     (logout st store (Except.ok ())).state.userProfile = none ∧
     (logout st store (Except.ok ())).state.error = none ∧
     (logout st store (Except.ok ())).state.isLoading = false ∧
     (logout st store (Except.ok ())).thrown = none ∧
     (logout st store (Except.ok ())).store = store) ∧
    (∀ cred f u p, signIn cred store f = Except.ok (u, p) →
      ((logout (login st store cred f).state (login st store cred f).store
          (Except.ok ())).state.user = none ∧
       (logout (login st store cred f).state (login st store cred f).store
          (Except.ok ())).state.userProfile = none ∧
       (logout (login st store cred f).state (login st store cred f).store
          (Except.ok ())).state.error = none)) := by
  refine ⟨⟨rfl, rfl, rfl, rfl, rfl, rfl⟩, ?_⟩
  intro cred f u p hs
  simp [logout, login, signOutUser, opBegin, hs]

/-- Witness for C6: concrete login over a store holding the profile, then
logout. -/
theorem logout_clears_session_witness :
    signIn (Except.ok sampleUser) sampleStore false = Except.ok (sampleUser, sampleProfile) ∧
    (logout (login initialAuthState sampleStore (Except.ok sampleUser) false).state
      (login initialAuthState sampleStore (Except.ok sampleUser) false).store
      (Except.ok ())).state.user = none :=
  ⟨rfl,
   ((logout_clears_session initialAuthState sampleStore).2 (Except.ok sampleUser) false
      sampleUser sampleProfile rfl).1⟩

/-- C7: `refreshUserProfile` while no session user is present is a no-op:
state, store and write list unchanged, nothing thrown. -/
theorem refreshUserProfile_signedOut_noop (st : AuthState) (store : Store) (f : Bool)
    (h : st.user = none) :
    refreshUserProfile st store f = ⟨st, store, [], none⟩ := by
  simp [refreshUserProfile, h]

/-- Witness for C7: the signed-out initial state. -/
theorem refreshUserProfile_signedOut_noop_witness :
    initialAuthState.user = none ∧
    refreshUserProfile initialAuthState sampleStore true =
      ⟨initialAuthState, sampleStore, [], none⟩ :=
  ⟨rfl, refreshUserProfile_signedOut_noop initialAuthState sampleStore true rfl⟩

/-- A signed-out state with a leftover error message. -/
def staleRedirectState : AuthState :=
  { user := none, userProfile := none, isLoading := false, error := some "earlier failure" }

/-- C8 counterexample: `handleGoogleRedirect` with no pending redirect result
does change a field of the session state — like every begin-phase operation
it clears `error` first, so a previously stored error is erased. -/
theorem handleGoogleRedirect_noPending_clears_stale_error :
    staleRedirectState.error = some "earlier failure" ∧
    (handleGoogleRedirect staleRedirectState [] (Except.ok none) "t0" false false).state.error
      = none :=
  ⟨rfl, rfl⟩

/-- C8 amended: with no pending redirect result, `handleGoogleRedirect`
leaves session user and profile unchanged, performs no store write, raises
nothing and stores no failure; but it does run the common begin phase, so it
ends with `error` cleared and `isLoading` false. -/
theorem handleGoogleRedirect_noPending_noop (st : AuthState) (store : Store) (now : String)
    (f g : Bool) :
    handleGoogleRedirect st store (Except.ok none) now f g =
      ⟨{ st with error := none, isLoading := false }, store, [], none⟩ :=
  rfl

/-- A trace using only controller operations and subscription deliveries: a
fully successful clinician signup, then a session-change delivery for the
same user whose profile read throws.  The store still holds the intact
profile document the controller wrote — nothing was corrupted or mutated
out-of-band — yet the router lands on its fallback branch. -/
def fallbackTrace : List Act :=
  [Act.signup (Except.ok sampleUser) "jane@example.com" UserRole.clinician samplePd "t0" false,
   Act.sessionChange (some sampleUser) true]

/-- C9 counterexample: the fallback branch of the Role Router is reachable
in an execution of the controller's operations and subscription deliveries
alone, with the Profile Store intact (the user's document is present and
unmodified). -/
theorem authFallback_reached_without_store_corruption :
    appNavigator (run (initWorld []) fallbackTrace).state = Screen.authFallback ∧
    storeGet (run (initWorld []) fallbackTrace).store sampleUser.uid = some sampleProfile ∧
    isAuthenticated (run (initWorld []) fallbackTrace).state = true :=
  ⟨rfl, rfl, rfl⟩

/-- A step is fetch-benign when every profile read it performs succeeds and
finds the document: this covers the two reads done outside a login flow — a
session-change delivery for a present user, and a profile refresh while a
user is present. -/
def FetchBenign (a : Act) (w : World) : Prop :=
  match a with
  | Act.sessionChange (some u) f => f = false ∧ (storeGet w.store u.uid).isSome = true
  | Act.refreshUserProfile f =>
      ∀ u, w.state.user = some u → (f = false ∧ (storeGet w.store u.uid).isSome = true)
  | _ => True

/-- Every step of the trace is fetch-benign, evaluated over the evolving
world. -/
def BenignFrom : World → List Act → Prop
  | _, [] => True
  | w, a :: as => FetchBenign a w ∧ BenignFrom (step w a) as

/-- A fetch-benign step preserves the invariant that a present session user
has a present profile. -/
theorem step_userHasProfile (w : World) (a : Act) (hb : FetchBenign a w)
    (h : w.state.user.isSome = true → w.state.userProfile.isSome = true) :
    (step w a).state.user.isSome = true → (step w a).state.userProfile.isSome = true := by
  cases a with
  | sessionChange su f =>
    cases su with
    | none => simp [step, opResultOf, onSessionChange, loadUserProfile]
    | some u =>
      obtain ⟨hf, hs⟩ := hb
      subst hf
      rcases Option.isSome_iff_exists.mp hs with ⟨p, hp⟩
      simp [step, opResultOf, onSessionChange, loadUserProfile, getCurrentUserProfile,
        getDocOutcome, hp]
  | refreshUserProfile f =>
    rcases hu : w.state.user with _ | u
    · simp [step, opResultOf, refreshUserProfile, hu]
    · obtain ⟨hf, hs⟩ := hb u hu
      subst hf
      rcases Option.isSome_iff_exists.mp hs with ⟨p, hp⟩
      simp [step, opResultOf, refreshUserProfile, loadUserProfile, getCurrentUserProfile,
        getDocOutcome, hu, hp]
  | _ =>
    revert h
    simp only [step, opResultOf, login, signup, loginWithGoogle, loginWithGoogleRedirect,
      handleGoogleRedirect, logout, clearError, opBegin]
    (repeat' split) <;> simp_all

/-- The user-has-profile invariant holds along any fetch-benign trace. -/
theorem run_userHasProfile (acts : List Act) : ∀ w : World, BenignFrom w acts →
    (w.state.user.isSome = true → w.state.userProfile.isSome = true) →
    ((run w acts).state.user.isSome = true → (run w acts).state.userProfile.isSome = true) := by
  induction acts with
  | nil => intro w _ h; exact h
  | cons a as ih =>
    intro w hb h
    exact ih (step w a) hb.2 (step_userHasProfile w a hb.1 h)

/-- A present profile makes exactly one of the role projections true. -/
theorem profile_role_dichotomy (st : AuthState) (h : st.userProfile.isSome = true) :
    isPatient st = true ∨ isClinician st = true := by
  rcases hx : st.userProfile with _ | p
  · rw [hx] at h; simp at h
  · cases hr : p.role
    · left; simp [isPatient, hx, hr]
    · right; simp [isClinician, hx, hr]

/-- The router lands on the fallback branch exactly when loading is over,
a session user is present, and neither role projection holds. -/
theorem appNavigator_eq_fallback_iff (st : AuthState) :
    appNavigator st = Screen.authFallback ↔
      (st.isLoading = false ∧ isAuthenticated st = true ∧ isPatient st = false ∧
       isClinician st = false) := by
  unfold appNavigator
  rcases hl : st.isLoading <;> rcases ha : isAuthenticated st <;>
    rcases hp : isPatient st <;> rcases hc : isClinician st <;> simp [hl, ha, hp, hc]

/-- C9 amended: the Role Router's fallback branch is unreachable along any
execution of the controller's operations and subscription deliveries in
which every profile read performed by a delivery or a refresh succeeds and
finds the document (it is reachable once such a read fails or finds
nothing); and the router selects the loading placeholder while loading, the
unauthenticated flow when not authenticated, and otherwise the patient or
clinician flow per the role projections. -/
theorem roleRouter_fallback_unreachable_on_benign_traces (store0 : Store) (acts : List Act)
    (hb : BenignFrom (initWorld store0) acts) :
    appNavigator (run (initWorld store0) acts).state ≠ Screen.authFallback ∧
    (∀ st : AuthState,
      (st.isLoading = true → appNavigator st = Screen.loadingScreen) ∧
      (st.isLoading = false → isAuthenticated st = false → appNavigator st = Screen.authFlow) ∧
      (st.isLoading = false → isAuthenticated st = true → isPatient st = true →
        appNavigator st = Screen.patientFlow) ∧
      (st.isLoading = false → isAuthenticated st = true → isPatient st = false →
        isClinician st = true → appNavigator st = Screen.clinicianFlow)) := by
  constructor
  · intro hcontra
    rcases (appNavigator_eq_fallback_iff _).mp hcontra with ⟨_, ha, hp, hc⟩
    have hprof := run_userHasProfile acts (initWorld store0) hb
      (fun hx => by simp [initWorld, initialAuthState] at hx) ha
    rcases profile_role_dichotomy _ hprof with h1 | h1
    · rw [hp] at h1; exact Bool.false_ne_true h1
    · rw [hc] at h1; exact Bool.false_ne_true h1
  · intro st
    refine ⟨?_, ?_, ?_, ?_⟩ <;> (intros; simp_all [appNavigator])

/-- A fetch-benign variant of the fallback trace: the delivery's read
succeeds. -/
def benignTrace : List Act :=
  [Act.signup (Except.ok sampleUser) "jane@example.com" UserRole.clinician samplePd "t0" false,
   Act.sessionChange (some sampleUser) false]

/-- Witness for C9 amended: a concrete benign trace avoids the fallback. -/
theorem roleRouter_fallback_unreachable_witness :
    BenignFrom (initWorld []) benignTrace ∧
    appNavigator (run (initWorld []) benignTrace).state ≠ Screen.authFallback :=
  ⟨⟨True.intro, ⟨rfl, rfl⟩, True.intro⟩,
   (roleRouter_fallback_unreachable_on_benign_traces [] benignTrace
      ⟨True.intro, ⟨rfl, rfl⟩, True.intro⟩).1⟩

/-- C10: a session-change delivery of a present user whose profile document
is missing, or whose profile read throws, ends with the user present and the
profile absent; the `error` field is untouched, nothing is raised (the
handler and `getCurrentUserProfile` swallow the failure), and loading is
cleared — so `isAuthenticated` is true while `isPatient` and `isClinician`
are both false. -/
theorem sessionChange_missingProfile_keeps_user (st : AuthState) (store : Store)
    (u : SessionUser) :
    ((onSessionChange st store (some u) true).user = some u ∧
     (onSessionChange st store (some u) true).userProfile = none ∧
     (onSessionChange st store (some u) true).error = st.error ∧
     (onSessionChange st store (some u) true).isLoading = false ∧
     isAuthenticated (onSessionChange st store (some u) true) = true ∧
     isPatient (onSessionChange st store (some u) true) = false ∧
     isClinician (onSessionChange st store (some u) true) = false) ∧
    (storeGet store u.uid = none →
     ((onSessionChange st store (some u) false).user = some u ∧
      (onSessionChange st store (some u) false).userProfile = none ∧
      (onSessionChange st store (some u) false).error = st.error ∧
      (onSessionChange st store (some u) false).isLoading = false ∧
      isAuthenticated (onSessionChange st store (some u) false) = true ∧
      isPatient (onSessionChange st store (some u) false) = false ∧
      isClinician (onSessionChange st store (some u) false) = false)) := by
  constructor
  · simp [onSessionChange, loadUserProfile, getCurrentUserProfile, getDocOutcome,
      isAuthenticated, isPatient, isClinician]
  · intro h
    simp [onSessionChange, loadUserProfile, getCurrentUserProfile, getDocOutcome, h,
      isAuthenticated, isPatient, isClinician]

/-- Witness for C10: a concrete delivery over the empty store. -/
theorem sessionChange_missingProfile_keeps_user_witness :
    storeGet [] sampleUser.uid = none ∧
    (onSessionChange staleRedirectState [] (some sampleUser) false).user = some sampleUser ∧
    (onSessionChange staleRedirectState [] (some sampleUser) false).userProfile = none :=
  ⟨rfl,
   ((sessionChange_missingProfile_keeps_user staleRedirectState [] sampleUser).2 rfl).1,
   ((sessionChange_missingProfile_keeps_user staleRedirectState [] sampleUser).2 rfl).2.1⟩

end BedAuth
